import Mathlib

/- Shallow embedding of the retirement planner repository
   (income_tax.py, irmaa.py, retirement_planner.py).

   Python floats are modelled as exact rationals (ℚ) and Python ints as ℤ.
   `float('inf')` only ever occurs in the sources as the upper end of a
   comparison or a `min` against a finite value, so `min x inf` is inlined
   as `x` and `y <= inf` as `True`.  Python's `round(x, 2)` is modelled by
   `round2` below (round half up on exact rationals; no statement in this
   file evaluates `round2` at a half-cent tie, where Python's float
   rounding has no exact decimal semantics anyway). -/

namespace income_tax

/-- Mirrors `TaxBracket` from income_tax.py.  The field `end_` plays the
role of the Python field `end` (a Lean keyword); `none` means no upper
bound. -/
structure TaxBracket where
  start : ℚ
  end_ : Option ℚ
  rate : ℚ
deriving DecidableEq, Repr

/-- `amount_in_bracket = min(taxable_income, upper) - lower` from the loop
body of `compute_tax`, with `upper = float('inf')` when `b.end` is `None`
(so the `min` is `taxable_income` itself). -/
def cappedAmount (taxable_income : ℚ) (b : TaxBracket) : ℚ :=
  (match b.end_ with
   | none => taxable_income
   | some u => min taxable_income u) - b.start

/-- The `for b in brackets` loop of `compute_tax`, with `tax` the running
accumulator.  `break` on `taxable_income <= lower` becomes returning the
accumulator; `if amount_in_bracket > 0: tax += amount_in_bracket * b.rate`
is the conditional second argument of the recursive call. -/
def compute_tax_go (taxable_income : ℚ) : List TaxBracket → ℚ → ℚ
  | [], tax => tax
  | b :: rest, tax =>
    if taxable_income ≤ b.start then tax
    else
      compute_tax_go taxable_income rest
        (if 0 < cappedAmount taxable_income b then
          tax + cappedAmount taxable_income b * b.rate
        else tax)

/-- `compute_tax` from income_tax.py. -/
def compute_tax (taxable_income : ℚ) (brackets : List TaxBracket) : ℚ :=
  if taxable_income ≤ 0 then 0
  else compute_tax_go taxable_income brackets 0

/-- `DEFAULT_BRACKETS` from income_tax.py. -/
def DEFAULT_BRACKETS : List TaxBracket :=
  [⟨0, some 11925, 0.1⟩,
   ⟨11925, some 48475, 0.12⟩,
   ⟨48475, some 103350, 0.22⟩,
   ⟨103350, some 197300, 0.24⟩,
   ⟨197300, some 250000, 0.32⟩,
   ⟨250000, some 500000, 0.35⟩,
   ⟨500000, none, 0.37⟩]

end income_tax

namespace irmaa

/-- Mirrors `IRMAABracket` from irmaa.py; `end_` plays the role of the
Python field `end` (`none` meaning no upper bound). -/
structure IRMAABracket where
  start : ℚ
  end_ : Option ℚ
  monthly_surcharge : ℚ
deriving DecidableEq, Repr

/-- The containment test `b.start <= magi <= upper` of `surcharge_for_magi`,
with `upper = float("inf")` when `b.end` is `None` (so that comparison is
always true). -/
def magiInBracket (b : IRMAABracket) (magi : ℚ) : Bool :=
  match b.end_ with
  | none => decide (b.start ≤ magi)
  | some u => decide (b.start ≤ magi) && decide (magi ≤ u)

/-- `surcharge_for_magi` from irmaa.py: first bracket containing `magi`
wins; `(0, 0)` if none does. -/
def surcharge_for_magi (magi : ℚ) : List IRMAABracket → ℚ × ℚ
  | [] => (0, 0)
  | b :: rest =>
    if magiInBracket b magi then (b.monthly_surcharge, b.monthly_surcharge * 12)
    else surcharge_for_magi magi rest

/-- `DEFAULT_BRACKETS` from irmaa.py.  Note every entry has `end=None`. -/
def DEFAULT_BRACKETS : List IRMAABracket :=
  [⟨0, none, 0⟩,
   ⟨106011, none, 87.7⟩,
   ⟨133001, none, 220.3⟩,
   ⟨167000, none, 352.9⟩,
   ⟨200001, none, 485.5⟩,
   ⟨500000, none, 529.6999999999999⟩]

end irmaa

open income_tax irmaa

/-- Python's `round(x, 2)` on the exact rational model: round to a whole
number of cents (half up; no statement below evaluates it at a tie). -/
def round2 (x : ℚ) : ℚ := (Rat.floor (x * 100 + 1 / 2) : ℚ) / 100

/-- `UNIFORM_LIFETIME_DIVISORS` from retirement_planner.py, as the lookup
function `dict.get`: ages 73..110 are tabulated, anything else is `none`. -/
def UNIFORM_LIFETIME_DIVISORS (age : ℤ) : Option ℚ :=
  if age = 73 then some 26.5
  else if age = 74 then some 25.5
  else if age = 75 then some 24.6
  else if age = 76 then some 23.7
  else if age = 77 then some 22.9
  else if age = 78 then some 22.0
  else if age = 79 then some 21.1
  else if age = 80 then some 20.2
  else if age = 81 then some 19.4
  else if age = 82 then some 18.5
  else if age = 83 then some 17.7
  else if age = 84 then some 16.8
  else if age = 85 then some 16.0
  else if age = 86 then some 15.2
  else if age = 87 then some 14.4
  else if age = 88 then some 13.7
  else if age = 89 then some 12.9
  else if age = 90 then some 12.2
  else if age = 91 then some 11.5
  else if age = 92 then some 10.8
  else if age = 93 then some 10.1
  else if age = 94 then some 9.5
  else if age = 95 then some 8.9
  else if age = 96 then some 8.4
  else if age = 97 then some 7.8
  else if age = 98 then some 7.3
  else if age = 99 then some 6.8
  else if age = 100 then some 6.4
  else if age = 101 then some 6.0
  else if age = 102 then some 5.6
  else if age = 103 then some 5.2
  else if age = 104 then some 4.9
  else if age = 105 then some 4.6
  else if age = 106 then some 4.3
  else if age = 107 then some 4.1
  else if age = 108 then some 3.9
  else if age = 109 then some 3.7
  else if age = 110 then some 3.5
  else none

/-- `rmd_for_age` from retirement_planner.py. -/
def rmd_for_age (age : ℤ) (balance : ℚ) (rmd_start_age : ℤ) : ℚ :=
  if age < rmd_start_age then 0
  else
    match UNIFORM_LIFETIME_DIVISORS age with
    | some divisor => balance / divisor
    | none => balance / max 3.0 (26.5 - ((age : ℚ) - 73) * 0.8)

/-- `PlannerInputs` from retirement_planner.py, with the same defaults. -/
structure PlannerInputs where
  start_year : ℤ
  start_age : ℤ
  start_trad_ira : ℚ
  start_roth_ira : ℚ := 0
  investment_return : ℚ := 0.07
  inflation_rate : ℚ := 0.03
  start_standard_deduction : ℚ := 15750.0
  standard_deduction_growth : ℚ := 0.022222222
  start_senior_deduction : ℚ := 4530.0
  other_income : ℚ := 7000.0
  start_ssa : ℚ := 40000.0
  ssa_factor : ℚ := 0.88
  start_living_expenses : ℚ := 65000.0
  ltc_start_year : Option ℤ := some 2038
  ltc_start_cost : ℚ := 100000.0
  rmd_start_age : ℤ := 73
  tax_brackets : Option (List TaxBracket) := none
  irmaa_brackets : Option (List IRMAABracket) := none
deriving DecidableEq

/-- `PlannerRow` from retirement_planner.py. -/
structure PlannerRow where
  year : ℤ
  age : ℤ
  trad_ira : ℚ
  roth_ira : ℚ
  rmd : ℚ
  roth_conversion : ℚ
  extra_trad_dist : ℚ
  ssa : ℚ
  agi : ℚ
  std_deduction : ℚ
  senior_deduction : ℚ
  taxable_income : ℚ
  tax : ℚ
  magi : ℚ
  irmaa_annual : ℚ
  living_expenses : ℚ
  amt_from_roth : ℚ
  net_income : ℚ
deriving DecidableEq

/-- `inputs.tax_brackets or DEFAULT_TAX_BRACKETS` (Python truthiness:
`None` and the empty list both fall back to the default). -/
def resolveTaxBrackets (inputs : PlannerInputs) : List TaxBracket :=
  match inputs.tax_brackets with
  | none => income_tax.DEFAULT_BRACKETS
  | some l => if l.isEmpty then income_tax.DEFAULT_BRACKETS else l

/-- `inputs.irmaa_brackets or DEFAULT_IRMAA_BRACKETS` (Python truthiness). -/
def resolveIrmaaBrackets (inputs : PlannerInputs) : List IRMAABracket :=
  match inputs.irmaa_brackets with
  | none => irmaa.DEFAULT_BRACKETS
  | some l => if l.isEmpty then irmaa.DEFAULT_BRACKETS else l

/- The body of the `for i in range(years)` loop of `simulate`, one local
variable per definition.  `rc` and `ed` model the dict arguments
`roth_conversions` and `extra_trad_distributions` through the results of
`dict.get(year, 0.0)`: the function value at a year absent from the dict
is 0.  `isd` is `include_senior_deduction`. -/

/-- `year = inputs.start_year + i`. -/
def yearOf (inputs : PlannerInputs) (i : ℕ) : ℤ := inputs.start_year + i

/-- `age = inputs.start_age + i`. -/
def ageOf (inputs : PlannerInputs) (i : ℕ) : ℤ := inputs.start_age + i

/-- `inflation_n = (1.0 + inputs.inflation_rate) ** i`. -/
def inflationFactor (inputs : PlannerInputs) (i : ℕ) : ℚ :=
  (1 + inputs.inflation_rate) ^ i

/-- `ssa = inputs.start_ssa * inflation_n * inputs.ssa_factor`. -/
def ssaFor (inputs : PlannerInputs) (i : ℕ) : ℚ :=
  inputs.start_ssa * inflationFactor inputs i * inputs.ssa_factor

/-- `rmd = rmd_for_age(age, trad, inputs.rmd_start_age)` (pre-growth balance). -/
def rmdFor (inputs : PlannerInputs) (i : ℕ) (trad : ℚ) : ℚ :=
  rmd_for_age (ageOf inputs i) trad inputs.rmd_start_age

/-- `trad_next = trad + trad * investment_return - rmd - roth_conv - extra_dist`. -/
def tradNextFor (inputs : PlannerInputs) (rc ed : ℤ → ℚ) (i : ℕ) (trad : ℚ) : ℚ :=
  trad + trad * inputs.investment_return - rmdFor inputs i trad
    - rc (yearOf inputs i) - ed (yearOf inputs i)

/-- `roth_next = roth + roth * investment_return + roth_conv` (pre-shortfall). -/
def rothNextPreFor (inputs : PlannerInputs) (rc : ℤ → ℚ) (i : ℕ) (roth : ℚ) : ℚ :=
  roth + roth * inputs.investment_return + rc (yearOf inputs i)

/-- `agi = max(0.0, other_income + ssa + rmd + roth_conv + extra_dist)`. -/
def agiFor (inputs : PlannerInputs) (rc ed : ℤ → ℚ) (i : ℕ) (trad : ℚ) : ℚ :=
  max 0 (inputs.other_income + ssaFor inputs i + rmdFor inputs i trad
    + rc (yearOf inputs i) + ed (yearOf inputs i))

/-- `std_ded = start_standard_deduction * (1 + standard_deduction_growth) ** i`. -/
def stdDedFor (inputs : PlannerInputs) (i : ℕ) : ℚ :=
  inputs.start_standard_deduction * (1 + inputs.standard_deduction_growth) ^ i

/-- `senior_ded = start_senior_deduction if include_senior_deduction and age >= 65 else 0.0`. -/
def seniorDedFor (inputs : PlannerInputs) (isd : Bool) (i : ℕ) : ℚ :=
  if isd = true ∧ 65 ≤ ageOf inputs i then inputs.start_senior_deduction else 0

/-- `taxable = max(0.0, agi - std_ded - senior_ded)`. -/
def taxableFor (inputs : PlannerInputs) (rc ed : ℤ → ℚ) (isd : Bool) (i : ℕ) (trad : ℚ) : ℚ :=
  max 0 (agiFor inputs rc ed i trad - stdDedFor inputs i - seniorDedFor inputs isd i)

/-- `tax = compute_tax(taxable, tb)`. -/
def taxFor (inputs : PlannerInputs) (rc ed : ℤ → ℚ) (isd : Bool) (i : ℕ) (trad : ℚ) : ℚ :=
  income_tax.compute_tax (taxableFor inputs rc ed isd i trad) (resolveTaxBrackets inputs)

/-- `magi = agi` (documented simplification in the source). -/
def magiFor (inputs : PlannerInputs) (rc ed : ℤ → ℚ) (i : ℕ) (trad : ℚ) : ℚ :=
  agiFor inputs rc ed i trad

/-- `_, irmaa_annual = surcharge_for_magi(magi, ib)`. -/
def irmaaAnnualFor (inputs : PlannerInputs) (rc ed : ℤ → ℚ) (i : ℕ) (trad : ℚ) : ℚ :=
  (irmaa.surcharge_for_magi (magiFor inputs rc ed i trad) (resolveIrmaaBrackets inputs)).2

/-- `net_income = agi - tax - irmaa_annual`. -/
def netIncomeFor (inputs : PlannerInputs) (rc ed : ℤ → ℚ) (isd : Bool) (i : ℕ) (trad : ℚ) : ℚ :=
  agiFor inputs rc ed i trad - taxFor inputs rc ed isd i trad - irmaaAnnualFor inputs rc ed i trad

/-- `inputs.ltc_start_year and year >= inputs.ltc_start_year` (Python
truthiness: `None` and `0` are both falsy). -/
def ltcActiveFor (inputs : PlannerInputs) (i : ℕ) : Bool :=
  match inputs.ltc_start_year with
  | none => false
  | some y => decide (¬y = 0) && decide (y ≤ yearOf inputs i)

/-- `living = start_living_expenses * inflation_n`, plus
`ltc_start_cost * inflation_n` once LTC is active. -/
def livingFor (inputs : PlannerInputs) (i : ℕ) : ℚ :=
  if ltcActiveFor inputs i then
    inputs.start_living_expenses * inflationFactor inputs i
      + inputs.ltc_start_cost * inflationFactor inputs i
  else inputs.start_living_expenses * inflationFactor inputs i

/-- `amt_from_roth = max(0.0, living - net_income)`. -/
def amtFromRothFor (inputs : PlannerInputs) (rc ed : ℤ → ℚ) (isd : Bool) (i : ℕ) (trad : ℚ) : ℚ :=
  max 0 (livingFor inputs i - netIncomeFor inputs rc ed isd i trad)

/-- `roth_next -= amt_from_roth`: final Roth balance for the year. -/
def rothNextFor (inputs : PlannerInputs) (rc ed : ℤ → ℚ) (isd : Bool) (i : ℕ)
    (trad roth : ℚ) : ℚ :=
  rothNextPreFor inputs rc i roth - amtFromRothFor inputs rc ed isd i trad

/-- One iteration of the `simulate` loop: the emitted `PlannerRow` (fields
rounded to cents) together with the unrounded balances `(trad_next,
roth_next)` carried into the next iteration. -/
def simulateStep (inputs : PlannerInputs) (rc ed : ℤ → ℚ) (isd : Bool) (i : ℕ)
    (trad roth : ℚ) : PlannerRow × ℚ × ℚ :=
  (⟨yearOf inputs i, ageOf inputs i,
    round2 (tradNextFor inputs rc ed i trad),
    round2 (rothNextFor inputs rc ed isd i trad roth),
    round2 (rmdFor inputs i trad),
    round2 (rc (yearOf inputs i)),
    round2 (ed (yearOf inputs i)),
    round2 (ssaFor inputs i),
    round2 (agiFor inputs rc ed i trad),
    round2 (stdDedFor inputs i),
    round2 (seniorDedFor inputs isd i),
    round2 (taxableFor inputs rc ed isd i trad),
    round2 (taxFor inputs rc ed isd i trad),
    round2 (magiFor inputs rc ed i trad),
    round2 (irmaaAnnualFor inputs rc ed i trad),
    round2 (livingFor inputs i),
    round2 (amtFromRothFor inputs rc ed isd i trad),
    round2 (netIncomeFor inputs rc ed isd i trad)⟩,
   tradNextFor inputs rc ed i trad,
   rothNextFor inputs rc ed isd i trad roth)

/-- The loop of `simulate`: `n` iterations remain, the next one has index
`i` and starting balances `(trad, roth)`. -/
def simulateAux (inputs : PlannerInputs) (rc ed : ℤ → ℚ) (isd : Bool) :
    ℕ → ℕ → ℚ → ℚ → List PlannerRow
  | 0, _, _, _ => []
  | n + 1, i, trad, roth =>
    let r := simulateStep inputs rc ed isd i trad roth
    r.1 :: simulateAux inputs rc ed isd n (i + 1) r.2.1 r.2.2

/-- `simulate` from retirement_planner.py. -/
def simulate (inputs : PlannerInputs) (years : ℕ) (rc ed : ℤ → ℚ) (isd : Bool) :
    List PlannerRow :=
  simulateAux inputs rc ed isd years 0 inputs.start_trad_ira inputs.start_roth_ira

/-- The running balances `(trad, roth)` at the start of iteration `j` of
the loop of `simulate`, when the first iteration to run has index `i` and
starting balances `(t, r)`. -/
def simStateFrom (inputs : PlannerInputs) (rc ed : ℤ → ℚ) (isd : Bool)
    (i : ℕ) (t r : ℚ) : ℕ → ℚ × ℚ
  | 0 => (t, r)
  | j + 1 =>
    let s := simStateFrom inputs rc ed isd i t r j
    (simulateStep inputs rc ed isd (i + j) s.1 s.2).2

/-- The running balances `(trad, roth)` at the start of iteration `i` of a
run of `simulate`. -/
def simState (inputs : PlannerInputs) (rc ed : ℤ → ℚ) (isd : Bool) (i : ℕ) : ℚ × ℚ :=
  simStateFrom inputs rc ed isd 0 inputs.start_trad_ira inputs.start_roth_ira i

/-- Consecutive-pair condition of the spec's bracket-table invariant for
tax brackets: ascending lower bounds and contiguity (each lower bound
equals the previous bracket's upper bound). -/
def taxPairOk (a b : TaxBracket) : Prop := a.start < b.start ∧ a.end_ = some b.start

instance : DecidableRel taxPairOk := fun a b => by unfold taxPairOk; infer_instance

/-- Consecutive-pair condition of the spec's bracket-table invariant for
IRMAA brackets. -/
def irmaaPairOk (a b : IRMAABracket) : Prop := a.start < b.start ∧ a.end_ = some b.start

instance : DecidableRel irmaaPairOk := fun a b => by unfold irmaaPairOk; infer_instance

/-- The last tax bracket, when there is one, has no upper bound. -/
def taxLastUnbounded (bs : List TaxBracket) : Bool :=
  match bs.getLast? with
  | some b => b.end_.isNone
  | none => true

/-- The last IRMAA bracket, when there is one, has no upper bound. -/
def irmaaLastUnbounded (bs : List IRMAABracket) : Bool :=
  match bs.getLast? with
  | some b => b.end_.isNone
  | none => true

/-- The spec's bracket-table invariant for tax brackets: ordered ascending
by lower bound, contiguous, and the unbounded bracket is the last one
(contiguity already forces every non-last bracket to be bounded, so
exactly one bracket is unbounded). -/
def taxBracketsWellFormed (bs : List TaxBracket) : Prop :=
  List.Chain' taxPairOk bs ∧ taxLastUnbounded bs = true

instance (bs : List TaxBracket) : Decidable (taxBracketsWellFormed bs) := by
  unfold taxBracketsWellFormed; infer_instance

/-- The spec's bracket-table invariant for IRMAA brackets. -/
def irmaaBracketsWellFormed (bs : List IRMAABracket) : Prop :=
  List.Chain' irmaaPairOk bs ∧ irmaaLastUnbounded bs = true

instance (bs : List IRMAABracket) : Decidable (irmaaBracketsWellFormed bs) := by
  unfold irmaaBracketsWellFormed; infer_instance

/-- A tax bracket is a nonempty interval: its lower bound does not exceed
its upper bound (always true when unbounded). -/
def bracketNonempty (b : TaxBracket) : Bool :=
  match b.end_ with
  | none => true
  | some u => decide (b.start ≤ u)

/-- Hypothesis of the tax-refinement claim: brackets sorted ascending by
lower bound and contiguous.  Each bracket being a nonempty interval is
part of the reading: for every non-last bracket it already follows from
sortedness plus contiguity, and it is what "bracket" means for the last
one when the caller supplies a bounded final bracket. -/
def taxSortedContiguous (bs : List TaxBracket) : Prop :=
  List.Chain' taxPairOk bs ∧ ∀ b ∈ bs, bracketNonempty b = true

instance (bs : List TaxBracket) : Decidable (taxSortedContiguous bs) := by
  unfold taxSortedContiguous; infer_instance

/-- Modelled from the spec's words (the reference side of the refinement
claim about `compute_tax`): exactly 0 on non-positive income; otherwise
the sum, over brackets in order stopping at the first bracket whose lower
bound is at least the income, of `(min(income, upper) - lower) * rate`,
an unbounded upper end being treated as infinite. -/
def compute_tax_spec (taxable_income : ℚ) (brackets : List TaxBracket) : ℚ :=
  if taxable_income ≤ 0 then 0
  else
    ((brackets.takeWhile fun b => decide (b.start < taxable_income)).map fun b =>
      cappedAmount taxable_income b * b.rate).sum

/-- The everywhere-zero year-indexed map (a dict with no entries). -/
def zeroMap : ℤ → ℚ := fun _ => 0

/-- Inputs of the end-to-end scenario: `start_year=2025`, `start_age=71`,
`start_trad_ira=1_000_000`, `start_roth_ira=100_000`, everything else at
its default. -/
def c1Inputs : PlannerInputs :=
  { start_year := 2025, start_age := 71,
    start_trad_ira := 1000000.0, start_roth_ira := 100000.0 }

/-- `roth_conversions = {2025: 10000}` read through `dict.get(year, 0.0)`. -/
def c1RothConversions : ℤ → ℚ := fun year => if year = 2025 then 10000.0 else 0

/-- `extra_trad_distributions = {2025: 42500}` read through `dict.get(year, 0.0)`. -/
def c1ExtraDists : ℤ → ℚ := fun year => if year = 2025 then 42500.0 else 0

/-- A scenario whose first-year ending balance is not a whole number of
cents: a traditional balance of 10.10 growing at rate 0.001 ends the year
at 10.1101, which rounds to 10.11 in the emitted record while 10.1101 is
carried into the next iteration. -/
def c4Inputs : PlannerInputs :=
  { start_year := 2025, start_age := 30,
    start_trad_ira := 10.10, start_roth_ira := 0,
    investment_return := 0.001, inflation_rate := 0,
    other_income := 0, start_ssa := 0,
    start_living_expenses := 0, ltc_start_year := none }

/-- A two-bracket IRMAA table satisfying the spec's invariant, used to
instantiate universally quantified IRMAA statements. -/
def irmaaTwoBrackets : List IRMAABracket := [⟨0, some 100, 10⟩, ⟨100, none, 20⟩]

/- Helper lemmas. -/

/-- Characterization of `round2` through the floor bounds. -/
theorem round2_eq (x : ℚ) (n : ℤ) (h1 : (n : ℚ) ≤ x * 100 + 1 / 2)
    (h2 : x * 100 + 1 / 2 < (n : ℚ) + 1) : round2 x = (n : ℚ) / 100 := by
  have hcast : Rat.floor (x * 100 + 1 / 2) = ⌊x * 100 + 1 / 2⌋ := rfl
  have hf : Rat.floor (x * 100 + 1 / 2) = n := by
    rw [hcast]
    exact Int.floor_eq_iff.mpr ⟨h1, h2⟩
  rw [round2, hf]

/-- `round2` fixes whole numbers. -/
theorem round2_intCast (n : ℤ) : round2 ((n : ℚ)) = (n : ℚ) := by
  have h := round2_eq (n : ℚ) (100 * n) (by push_cast; nlinarith) (by push_cast; nlinarith)
  rw [h]; push_cast; ring

/-- `round2` fixes zero. -/
theorem round2_zero : round2 0 = 0 := by
  have h := round2_intCast 0
  simpa using h

/-- Shifting the starting iteration of `simStateFrom` by one step. -/
theorem simStateFrom_shift (inputs : PlannerInputs) (rc ed : ℤ → ℚ) (isd : Bool)
    (i : ℕ) (t r : ℚ) (j : ℕ) :
    simStateFrom inputs rc ed isd i t r (j + 1) =
      simStateFrom inputs rc ed isd (i + 1)
        (simulateStep inputs rc ed isd i t r).2.1
        (simulateStep inputs rc ed isd i t r).2.2 j := by
  induction j with
  | zero => simp [simStateFrom]
  | succ j ih =>
    show (simulateStep inputs rc ed isd (i + (j + 1)) _ _).2 = _
    have hidx : i + (j + 1) = (i + 1) + j := by omega
    rw [hidx, ih]
    rfl

/-- The element at index `j` of the list built by the `simulate` loop is
the row produced by iteration `i + j` from the balances carried into it. -/
theorem simulateAux_get? (inputs : PlannerInputs) (rc ed : ℤ → ℚ) (isd : Bool) :
    ∀ (n j i : ℕ) (t r : ℚ), j < n →
      (simulateAux inputs rc ed isd n i t r).get? j =
        some (simulateStep inputs rc ed isd (i + j)
          (simStateFrom inputs rc ed isd i t r j).1
          (simStateFrom inputs rc ed isd i t r j).2).1 := by
  intro n
  induction n with
  | zero => intro j i t r h; exact absurd h (Nat.not_lt_zero j)
  | succ n ih =>
    intro j i t r h
    cases j with
    | zero => simp [simulateAux, simStateFrom]
    | succ j =>
      show (simulateAux inputs rc ed isd n (i + 1) _ _).get? j = _
      rw [ih j (i + 1) _ _ (Nat.lt_of_succ_lt_succ h)]
      rw [simStateFrom_shift]
      have hidx : i + (j + 1) = (i + 1) + j := by omega
      rw [hidx]

/-- The record at index `j` of a `simulate` run is the row produced by
iteration `j` from the running balances `simState j`. -/
theorem simulate_get? (inputs : PlannerInputs) (rc ed : ℤ → ℚ) (isd : Bool)
    (years j : ℕ) (h : j < years) :
    (simulate inputs years rc ed isd).get? j =
      some (simulateStep inputs rc ed isd j
        (simState inputs rc ed isd j).1 (simState inputs rc ed isd j).2).1 := by
  unfold simulate simState
  rw [simulateAux_get? inputs rc ed isd years j 0 _ _ h]
  simp

/-- Ages beyond the last tabulated entry (110) are absent from the table. -/
theorem UNIFORM_LIFETIME_DIVISORS_none (age : ℤ) (h : 110 < age) :
    UNIFORM_LIFETIME_DIVISORS age = none := by
  unfold UNIFORM_LIFETIME_DIVISORS
  repeat rw [if_neg (by omega)]

/-- Along a chain of ordered contiguous IRMAA brackets, every element of
the tail has a strictly larger lower bound than the head. -/
theorem start_lt_get_start (c : irmaa.IRMAABracket) (tl : List irmaa.IRMAABracket)
    (hc : List.Chain' irmaaPairOk (c :: tl)) (j : ℕ) (hj : j < tl.length) :
    c.start < (tl.get ⟨j, hj⟩).start := by
  induction j generalizing c tl with
  | zero =>
    cases tl with
    | nil => exact absurd hj (by simp)
    | cons d tl' => exact (List.chain'_cons.mp hc).1.1
  | succ j ih =>
    cases tl with
    | nil => exact absurd hj (by simp)
    | cons d tl' =>
      have h1 := (List.chain'_cons.mp hc).1
      have h2 := (List.chain'_cons.mp hc).2
      have hj' : j < tl'.length := by simpa using hj
      exact lt_trans h1.1 (ih d tl' h2 hj')

/-- In an ordered contiguous bracket list, a MAGI lying exactly at bracket
`k + 1`'s lower bound (equal to bracket `k`'s upper bound) is matched by
bracket `k`: the containment test's upper end is inclusive and the first
matching bracket wins. -/
theorem surcharge_at_boundary (bs : List irmaa.IRMAABracket)
    (hbs : List.Chain' irmaaPairOk bs) (k : ℕ) (h : k + 1 < bs.length) :
    irmaa.surcharge_for_magi ((bs.get ⟨k + 1, h⟩).start) bs =
      ((bs.get ⟨k, Nat.lt_of_succ_lt h⟩).monthly_surcharge,
       (bs.get ⟨k, Nat.lt_of_succ_lt h⟩).monthly_surcharge * 12) := by
  induction k generalizing bs with
  | zero =>
    match bs, h with
    | b :: c :: tl, h =>
      obtain ⟨⟨hlt, hend⟩, -⟩ := List.chain'_cons.mp hbs
      have hin : irmaa.magiInBracket b c.start = true := by
        unfold irmaa.magiInBracket
        rw [hend]
        simp [hlt.le]
      show irmaa.surcharge_for_magi (((b :: c :: tl).get ⟨1, h⟩).start) (b :: c :: tl) = _
      simp only [List.get_cons_succ, List.get_cons_zero]
      simp [irmaa.surcharge_for_magi, hin]
  | succ k ih =>
    match bs, h with
    | b :: c :: tl, h =>
      obtain ⟨⟨hlt, hend⟩, hchain⟩ := List.chain'_cons.mp hbs
      have hk : k + 1 < (c :: tl).length := by simpa using h
      have hj : k < tl.length := by simpa using hk
      have hmagi_gt : c.start < (tl.get ⟨k, hj⟩).start :=
        start_lt_get_start c tl hchain k hj
      have hget : ((b :: c :: tl).get ⟨k + 2, h⟩) = (tl.get ⟨k, hj⟩) := rfl
      have hout : irmaa.magiInBracket b ((tl.get ⟨k, hj⟩).start) = false := by
        unfold irmaa.magiInBracket
        rw [hend]
        simp only [Bool.and_eq_false_iff, decide_eq_false_iff_not, not_le]
        right
        exact hmagi_gt
      have hrec := ih (c :: tl) hchain hk
      have hgetk : ((c :: tl).get ⟨k + 1, hk⟩) = (tl.get ⟨k, hj⟩) := rfl
      rw [hgetk] at hrec
      show irmaa.surcharge_for_magi (((b :: c :: tl).get ⟨k + 2, h⟩).start) (b :: c :: tl) = _
      rw [hget]
      conv_lhs => rw [irmaa.surcharge_for_magi]
      rw [if_neg (by rw [hout]; simp)]
      exact hrec

/-- A bracket with lower bound below the income and a nonempty interval
contributes a non-negative capped amount. -/
theorem cappedAmount_nonneg (ti : ℚ) (b : income_tax.TaxBracket)
    (hb : bracketNonempty b = true) (hlt : b.start < ti) :
    0 ≤ income_tax.cappedAmount ti b := by
  unfold income_tax.cappedAmount
  cases hend : b.end_ with
  | none => simp [hend]; linarith
  | some u =>
    unfold bracketNonempty at hb
    rw [hend] at hb
    have hu : b.start ≤ u := by simpa using hb
    simp [hend]
    exact ⟨hlt.le, hu⟩

/-- Any non-negative MAGI is caught by the first default IRMAA bracket
`[0, unbounded)`, whose surcharge is zero. -/
theorem surcharge_default_nonneg (magi : ℚ) (h : 0 ≤ magi) :
    irmaa.surcharge_for_magi magi irmaa.DEFAULT_BRACKETS = (0, 0) := by
  have hin : irmaa.magiInBracket ⟨0, none, 0⟩ magi = true := by
    unfold irmaa.magiInBracket
    simpa using h
  rw [irmaa.DEFAULT_BRACKETS]
  rw [irmaa.surcharge_for_magi, if_pos hin]
  norm_num

/-- The Python condition `inputs.ltc_start_year and year >= ltc_start_year`
for a configured (`some y`, `y ≠ 0`) onset year is the comparison itself. -/
theorem livingFor_eq (inputs : PlannerInputs) (y : ℤ)
    (hy : inputs.ltc_start_year = some y) (hy0 : y ≠ 0) (i : ℕ) :
    livingFor inputs i =
      inputs.start_living_expenses * inflationFactor inputs i +
        (if y ≤ yearOf inputs i then inputs.ltc_start_cost * inflationFactor inputs i
         else 0) := by
  unfold livingFor ltcActiveFor
  rw [hy]
  by_cases hle : y ≤ yearOf inputs i
  · simp [hy0, hle]
  · simp [hy0, hle]

/-- Replacing the living-expense configuration (starting expenses, LTC cost
and onset year) and the starting Roth balance. -/
def overrideExpenses (inputs : PlannerInputs) (le lc : ℚ) (ly : Option ℤ)
    (rb : ℚ) : PlannerInputs :=
  { inputs with
    start_living_expenses := le
    ltc_start_cost := lc
    ltc_start_year := ly
    start_roth_ira := rb }

/-- The traditional-balance update reads none of the overridden fields. -/
theorem tradNextFor_override (inputs : PlannerInputs) (le lc : ℚ) (ly : Option ℤ)
    (rb : ℚ) (rc ed : ℤ → ℚ) (i : ℕ) (trad : ℚ) :
    tradNextFor (overrideExpenses inputs le lc ly rb) rc ed i trad =
      tradNextFor inputs rc ed i trad := rfl

/-- The traditional component of the running balances is unchanged by the
living-expense configuration, the LTC configuration, and the Roth side. -/
theorem simStateFrom_trad_override (inputs : PlannerInputs) (le lc : ℚ)
    (ly : Option ℤ) (rb : ℚ) (rc ed : ℤ → ℚ) (isd : Bool) (i₀ : ℕ) (t : ℚ) :
    ∀ (j : ℕ) (r r' : ℚ),
      (simStateFrom (overrideExpenses inputs le lc ly rb) rc ed isd i₀ t r j).1 =
        (simStateFrom inputs rc ed isd i₀ t r' j).1 := by
  intro j
  induction j with
  | zero => intro r r'; rfl
  | succ j ih =>
    intro r r'
    show tradNextFor (overrideExpenses inputs le lc ly rb) rc ed (i₀ + j) _ = _
    rw [tradNextFor_override, ih r r']
    rfl

/-- The accumulator loop of `compute_tax` computes the reference marginal
sum, provided every bracket is a nonempty interval. -/
theorem compute_tax_go_eq (ti : ℚ) :
    ∀ (bs : List income_tax.TaxBracket) (acc : ℚ),
      (∀ b ∈ bs, bracketNonempty b = true) →
      income_tax.compute_tax_go ti bs acc =
        acc + ((bs.takeWhile fun b => decide (b.start < ti)).map fun b =>
          income_tax.cappedAmount ti b * b.rate).sum := by
  intro bs
  induction bs with
  | nil => intro acc _; simp [income_tax.compute_tax_go]
  | cons b rest ih =>
    intro acc hne
    have hb := hne b (by simp)
    have hrest : ∀ x ∈ rest, bracketNonempty x = true := fun x hx => hne x (by simp [hx])
    by_cases hle : ti ≤ b.start
    · have hdec : (decide (b.start < ti)) = false := by simp [not_lt.mpr hle]
      rw [income_tax.compute_tax_go, if_pos hle, List.takeWhile_cons, hdec]
      simp
    · push_neg at hle
      have hdec : (decide (b.start < ti)) = true := by simp [hle]
      rw [income_tax.compute_tax_go, if_neg (not_le.mpr hle), List.takeWhile_cons, hdec]
      simp only [if_true]
      have hamt := cappedAmount_nonneg ti b hb hle
      by_cases hpos : 0 < income_tax.cappedAmount ti b
      · rw [if_pos hpos, ih _ hrest]
        simp only [List.map_cons, List.sum_cons]
        ring
      · have hzero : income_tax.cappedAmount ti b = 0 :=
          le_antisymm (not_lt.mp hpos) hamt
        rw [if_neg hpos, ih _ hrest]
        simp [List.map_cons, List.sum_cons, hzero]

/- Claim theorems. -/

/-- C1: with `start_year=2025`, `start_age=71`, `start_trad_ira=1000000`,
`start_roth_ira=100000`, all other inputs at their defaults, one simulated
year, a 10000 Roth conversion and a 42500 extra distribution in 2025,
`simulate` returns exactly one record with `year=2025`, `age=71`, `rmd=0`,
`roth_conversion=10000`, `extra_trad_dist=42500`, and ending traditional
balance `1000000 * 1.07 - 0 - 10000 - 42500 = 1017500.00`. -/
theorem retirement_c1_end_to_end :
    (simulate c1Inputs 1 c1RothConversions c1ExtraDists true).length = 1 ∧
    ((simulate c1Inputs 1 c1RothConversions c1ExtraDists true).get? 0).map
      (fun r => (r.year, r.age, r.rmd, r.roth_conversion, r.extra_trad_dist, r.trad_ira)) =
      some (2025, 71, 0, 10000, 42500, 1017500) := by
  refine ⟨by simp [simulate, simulateAux], ?_⟩
  rw [simulate_get? _ _ _ _ 1 0 (by norm_num)]
  simp only [Option.map_some', simulateStep]
  have hrmd : rmdFor c1Inputs 0
      (simState c1Inputs c1RothConversions c1ExtraDists true 0).1 = 0 := by
    norm_num [rmdFor, rmd_for_age, ageOf, c1Inputs, simState, simStateFrom]
  have hstate : (simState c1Inputs c1RothConversions c1ExtraDists true 0).1 = 1000000 := by
    norm_num [simState, simStateFrom, c1Inputs]
  have htrad : tradNextFor c1Inputs c1RothConversions c1ExtraDists 0
      (simState c1Inputs c1RothConversions c1ExtraDists true 0).1 = 1017500 := by
    rw [tradNextFor, hrmd, hstate]
    norm_num [c1Inputs, c1RothConversions, c1ExtraDists, yearOf]
  have hr1 : round2 (10000 : ℚ) = 10000 := by
    rw [round2_eq (10000 : ℚ) 1000000 (by norm_num) (by norm_num)]
    norm_num
  have hr2 : round2 (42500 : ℚ) = 42500 := by
    rw [round2_eq (42500 : ℚ) 4250000 (by norm_num) (by norm_num)]
    norm_num
  have hr3 : round2 (1017500 : ℚ) = 1017500 := by
    rw [round2_eq (1017500 : ℚ) 101750000 (by norm_num) (by norm_num)]
    norm_num
  rw [htrad, hrmd]
  norm_num [yearOf, ageOf, c1Inputs, c1RothConversions, c1ExtraDists, round2_zero,
    hr1, hr2, hr3]

/-- C2 counterexample: with the built-in default IRMAA table, a MAGI of
exactly 106011.0 yields the surcharge pair `(0, 0)` from the first,
all-encompassing bracket — not the `(87.7, 87.7 * 12)` the claim asserts
for the bracket starting at 106011.0. -/
theorem retirement_c2_counterexample :
    irmaa.surcharge_for_magi 106011 irmaa.DEFAULT_BRACKETS = (0, 0) ∧
    irmaa.surcharge_for_magi 106011 irmaa.DEFAULT_BRACKETS ≠ (87.7, 87.7 * 12) := by
  have h := surcharge_default_nonneg 106011 (by norm_num)
  refine ⟨h, ?_⟩
  rw [h]
  intro hcontra
  have := congrArg Prod.fst hcontra
  norm_num at this

/-- C2 amended: for every well-formed IRMAA bracket list, a MAGI lying
exactly at bracket `k + 1`'s lower bound is matched by the PRECEDING
bracket `k` (the containment test is inclusive at the upper end and the
first matching bracket wins), so the returned surcharge is bracket `k`'s;
and with the built-in default table (whose brackets are all unbounded)
a MAGI of 106011.0 matches the first bracket and yields monthly
surcharge 0. -/
theorem retirement_c2_amended :
    (∀ (bs : List irmaa.IRMAABracket), irmaaBracketsWellFormed bs →
      ∀ (k : ℕ) (h : k + 1 < bs.length),
        irmaa.surcharge_for_magi ((bs.get ⟨k + 1, h⟩).start) bs =
          ((bs.get ⟨k, Nat.lt_of_succ_lt h⟩).monthly_surcharge,
           (bs.get ⟨k, Nat.lt_of_succ_lt h⟩).monthly_surcharge * 12)) ∧
    irmaa.surcharge_for_magi 106011 irmaa.DEFAULT_BRACKETS = (0, 0) := by
  constructor
  · intro bs hwf k h
    exact surcharge_at_boundary bs hwf.1 k h
  · exact surcharge_default_nonneg 106011 (by norm_num)

/-- C2 witness: on a concrete well-formed two-bracket table, the boundary
MAGI 100 is matched by the first bracket, returning its surcharge. -/
theorem retirement_c2_witness :
    irmaaBracketsWellFormed irmaaTwoBrackets ∧
    irmaa.surcharge_for_magi
        ((irmaaTwoBrackets.get ⟨1, by norm_num [irmaaTwoBrackets]⟩).start)
        irmaaTwoBrackets =
      ((irmaaTwoBrackets.get ⟨0, by norm_num [irmaaTwoBrackets]⟩).monthly_surcharge,
       (irmaaTwoBrackets.get ⟨0, by norm_num [irmaaTwoBrackets]⟩).monthly_surcharge * 12) :=
  ⟨by norm_num [irmaaBracketsWellFormed, irmaaTwoBrackets, irmaaPairOk, irmaaLastUnbounded,
      List.chain'_cons, List.chain'_singleton],
   retirement_c2_amended.1 irmaaTwoBrackets
     (by norm_num [irmaaBracketsWellFormed, irmaaTwoBrackets, irmaaPairOk, irmaaLastUnbounded,
       List.chain'_cons, List.chain'_singleton])
     0 (by norm_num [irmaaTwoBrackets])⟩

/-- C3: every built-in default IRMAA bracket has an unbounded upper end;
`surcharge_for_magi` returns `(0, 0)` for every non-negative MAGI against
the default table (the first bracket `[0, unbounded)` with surcharge 0
always matches first); hence every record of a simulation run using the
default IRMAA table has a zero annual IRMAA surcharge. -/
theorem retirement_c3_default_irmaa_zero :
    (∀ b ∈ irmaa.DEFAULT_BRACKETS, b.end_ = none) ∧
    (∀ magi : ℚ, 0 ≤ magi →
      irmaa.surcharge_for_magi magi irmaa.DEFAULT_BRACKETS = (0, 0)) ∧
    (∀ (inputs : PlannerInputs) (rc ed : ℤ → ℚ) (isd : Bool) (years i : ℕ),
      inputs.irmaa_brackets = none → i < years →
      ((simulate inputs years rc ed isd).get? i).map PlannerRow.irmaa_annual = some 0) := by
  refine ⟨by norm_num [irmaa.DEFAULT_BRACKETS],
    fun magi h => surcharge_default_nonneg magi h, ?_⟩
  intro inputs rc ed isd years i hib hi
  rw [simulate_get? inputs rc ed isd years i hi]
  simp only [Option.map_some', simulateStep]
  have hres : resolveIrmaaBrackets inputs = irmaa.DEFAULT_BRACKETS := by
    unfold resolveIrmaaBrackets
    rw [hib]
  have hmagi : 0 ≤ magiFor inputs rc ed i (simState inputs rc ed isd i).1 :=
    le_max_left 0 _
  have hz : irmaaAnnualFor inputs rc ed i (simState inputs rc ed isd i).1 = 0 := by
    unfold irmaaAnnualFor
    rw [hres, surcharge_default_nonneg _ hmagi]
  rw [hz, round2_zero]

/-- C3 witness: the surcharge at MAGI 5 against the default table, and the
zero IRMAA field of a concrete one-year run on the default table. -/
theorem retirement_c3_witness :
    irmaa.surcharge_for_magi 5 irmaa.DEFAULT_BRACKETS = (0, 0) ∧
    ((simulate c1Inputs 1 c1RothConversions c1ExtraDists true).get? 0).map
      PlannerRow.irmaa_annual = some 0 :=
  ⟨retirement_c3_default_irmaa_zero.2.1 5 (by norm_num),
   retirement_c3_default_irmaa_zero.2.2 c1Inputs c1RothConversions c1ExtraDists true 1 0
     rfl (by norm_num)⟩

/-- C4 counterexample: in a two-year run whose first-year ending
traditional balance is 10.1101 (not a whole number of cents), the record
emitted for year 0 holds the rounded value 10.11, while the balance used
as the starting value of iteration 1 is the unrounded 10.1101 — so the
starting balances of iteration `i` are NOT the values emitted in record
`i - 1`. -/
theorem retirement_c4_counterexample :
    ((simulate c4Inputs 2 zeroMap zeroMap true).get? 0).map PlannerRow.trad_ira ≠
      some ((simState c4Inputs zeroMap zeroMap true 1).1) := by
  have hstate0 : (simState c4Inputs zeroMap zeroMap true 0).1 = 10.10 := by
    norm_num [simState, simStateFrom, c4Inputs]
  have hrmd : rmdFor c4Inputs 0 (simState c4Inputs zeroMap zeroMap true 0).1 = 0 := by
    norm_num [rmdFor, rmd_for_age, ageOf, c4Inputs]
  have htrad : tradNextFor c4Inputs zeroMap zeroMap 0
      (simState c4Inputs zeroMap zeroMap true 0).1 = 10.1101 := by
    rw [tradNextFor, hrmd, hstate0]
    norm_num [c4Inputs, zeroMap, yearOf]
  have hstate1 : (simState c4Inputs zeroMap zeroMap true 1).1 = 10.1101 := by
    have hu : (simState c4Inputs zeroMap zeroMap true 1).1 =
        tradNextFor c4Inputs zeroMap zeroMap 0
          (simState c4Inputs zeroMap zeroMap true 0).1 := by
      simp [simState, simStateFrom, simulateStep]
    rw [hu, htrad]
  rw [simulate_get? _ _ _ _ 2 0 (by norm_num)]
  simp only [Option.map_some', simulateStep]
  rw [htrad, hstate1]
  have hround : round2 (10.1101 : ℚ) = 10.11 := by
    rw [round2_eq (10.1101 : ℚ) 1011 (by norm_num) (by norm_num)]
    norm_num
  rw [hround]
  norm_num

/-- C4 amended: the balances used as the starting values of iteration
`j + 1` are exactly the UNROUNDED ending balances computed in iteration
`j`, and the record emitted for iteration `j` holds those ending balances
rounded to cents (so record and carried state agree exactly only when the
ending balances are whole numbers of cents). -/
theorem retirement_c4_amended (inputs : PlannerInputs) (rc ed : ℤ → ℚ) (isd : Bool)
    (years j : ℕ) (h : j < years) :
    simState inputs rc ed isd (j + 1) =
      (simulateStep inputs rc ed isd j
        (simState inputs rc ed isd j).1 (simState inputs rc ed isd j).2).2 ∧
    ((simulate inputs years rc ed isd).get? j).map PlannerRow.trad_ira =
      some (round2 (simState inputs rc ed isd (j + 1)).1) ∧
    ((simulate inputs years rc ed isd).get? j).map PlannerRow.roth_ira =
      some (round2 (simState inputs rc ed isd (j + 1)).2) := by
  have hstate : simState inputs rc ed isd (j + 1) =
      (simulateStep inputs rc ed isd j
        (simState inputs rc ed isd j).1 (simState inputs rc ed isd j).2).2 := by
    simp only [simState, simStateFrom]
    rw [Nat.zero_add]
  refine ⟨hstate, ?_, ?_⟩
  · rw [simulate_get? inputs rc ed isd years j h, hstate]
    rfl
  · rw [simulate_get? inputs rc ed isd years j h, hstate]
    rfl

/-- C4 witness: the amended statement instantiated on the concrete
two-year scenario. -/
theorem retirement_c4_witness :
    simState c4Inputs zeroMap zeroMap true 1 =
      (simulateStep c4Inputs zeroMap zeroMap true 0
        (simState c4Inputs zeroMap zeroMap true 0).1
        (simState c4Inputs zeroMap zeroMap true 0).2).2 ∧
    ((simulate c4Inputs 2 zeroMap zeroMap true).get? 0).map PlannerRow.trad_ira =
      some (round2 (simState c4Inputs zeroMap zeroMap true 1).1) ∧
    ((simulate c4Inputs 2 zeroMap zeroMap true).get? 0).map PlannerRow.roth_ira =
      some (round2 (simState c4Inputs zeroMap zeroMap true 1).2) :=
  retirement_c4_amended c4Inputs zeroMap zeroMap true 2 0 (by norm_num)

/-- C5: the built-in income-tax bracket table satisfies the spec's
invariant (ascending, contiguous, exactly one unbounded bracket, last),
but the built-in IRMAA bracket table does NOT: every one of its six
brackets has an unbounded upper end. -/
theorem retirement_c5_tables :
    taxBracketsWellFormed income_tax.DEFAULT_BRACKETS ∧
    ¬irmaaBracketsWellFormed irmaa.DEFAULT_BRACKETS ∧
    (∀ b ∈ irmaa.DEFAULT_BRACKETS, b.end_ = none) := by
  refine ⟨?_, ?_, ?_⟩
  · norm_num [taxBracketsWellFormed, income_tax.DEFAULT_BRACKETS, taxPairOk, taxLastUnbounded,
      List.chain'_cons, List.chain'_singleton]
  · intro h
    obtain ⟨hchain, -⟩ := h
    simp only [irmaa.DEFAULT_BRACKETS, List.chain'_cons, irmaaPairOk] at hchain
    exact Option.noConfusion hchain.1.2
  · norm_num [irmaa.DEFAULT_BRACKETS]

/-- C6: for every bracket list sorted ascending by lower bound and
contiguous, `compute_tax` equals the marginal-bracket reference
definition written from the spec's words. -/
theorem retirement_c6_refinement (taxable_income : ℚ)
    (brackets : List income_tax.TaxBracket) (h : taxSortedContiguous brackets) :
    income_tax.compute_tax taxable_income brackets =
      compute_tax_spec taxable_income brackets := by
  by_cases hle : taxable_income ≤ 0
  · rw [income_tax.compute_tax, if_pos hle, compute_tax_spec, if_pos hle]
  · rw [income_tax.compute_tax, if_neg hle, compute_tax_spec, if_neg hle,
      compute_tax_go_eq taxable_income brackets 0 h.2]
    ring

/-- C6 witness: the refinement instantiated at the built-in default
income-tax table and a concrete income. -/
theorem retirement_c6_witness :
    taxSortedContiguous income_tax.DEFAULT_BRACKETS ∧
    income_tax.compute_tax 74420 income_tax.DEFAULT_BRACKETS =
      compute_tax_spec 74420 income_tax.DEFAULT_BRACKETS :=
  ⟨by norm_num [taxSortedContiguous, income_tax.DEFAULT_BRACKETS, taxPairOk, bracketNonempty,
      List.chain'_cons, List.chain'_singleton],
   retirement_c6_refinement 74420 income_tax.DEFAULT_BRACKETS
     (by norm_num [taxSortedContiguous, income_tax.DEFAULT_BRACKETS, taxPairOk, bracketNonempty,
       List.chain'_cons, List.chain'_singleton])⟩

/-- C7 counterexample: against the single all-encompassing bracket
`(0, unbounded, rate 1/2)`, a NEGATIVE taxable income of -1 yields tax 0,
not `taxable_income * rate = -1/2` — the claim's "no non-negativity
restriction" fails on the code's `taxable_income <= 0` guard. -/
theorem retirement_c7_counterexample :
    income_tax.compute_tax (-1) [⟨0, none, 1/2⟩] = 0 ∧ (0 : ℚ) ≠ (-1) * (1/2) := by
  constructor
  · rw [income_tax.compute_tax, if_pos (by norm_num)]
  · norm_num

/-- C7 amended: against a single all-encompassing bracket
`(0, unbounded, rate r)`, `compute_tax` returns `taxable_income * r` for
every NON-NEGATIVE income, and exactly 0 for negative income. -/
theorem retirement_c7_amended (taxable_income r : ℚ) :
    (0 ≤ taxable_income →
      income_tax.compute_tax taxable_income [⟨0, none, r⟩] = taxable_income * r) ∧
    (taxable_income < 0 → income_tax.compute_tax taxable_income [⟨0, none, r⟩] = 0) := by
  constructor
  · intro h
    rcases eq_or_lt_of_le h with heq | hpos
    · rw [income_tax.compute_tax, if_pos (le_of_eq heq.symm), ← heq]
      ring
    · have hca : income_tax.cappedAmount taxable_income ⟨0, none, r⟩ = taxable_income := by
        unfold income_tax.cappedAmount
        norm_num
      rw [income_tax.compute_tax, if_neg (not_le.mpr hpos),
        income_tax.compute_tax_go, if_neg (by simpa using not_le.mpr hpos), hca,
        if_pos hpos, income_tax.compute_tax_go]
      ring
  · intro h
    rw [income_tax.compute_tax, if_pos h.le]

/-- C7 witness: the amended statement instantiated at income 3 and
rate 1/2. -/
theorem retirement_c7_witness :
    (0 : ℚ) ≤ 3 ∧ income_tax.compute_tax 3 [⟨0, none, 1/2⟩] = 3 * (1/2) :=
  ⟨by norm_num, (retirement_c7_amended 3 (1/2)).1 (by norm_num)⟩

/-- C8: `rmd_for_age` returns 0 below the RMD start age for any balance;
for a tabulated age at or above the start age it returns the balance
divided by the table's divisor (so age 72 with start 73 gives 0 and age
73 with a 1,000,000 balance gives 1000000 / 26.5); for every age above
the table's maximum (110) it divides by the linear-decay divisor
`max(3.0, 26.5 - (age - 73) * 0.8)`, which is always positive. -/
theorem retirement_c8_rmd :
    (∀ (age rsa : ℤ) (balance : ℚ), age < rsa → rmd_for_age age balance rsa = 0) ∧
    (∀ (age rsa : ℤ) (balance d : ℚ), rsa ≤ age →
      UNIFORM_LIFETIME_DIVISORS age = some d →
      rmd_for_age age balance rsa = balance / d) ∧
    (∀ balance : ℚ, rmd_for_age 72 balance 73 = 0) ∧
    rmd_for_age 73 1000000 73 = 1000000 / 26.5 ∧
    (∀ (age rsa : ℤ) (balance : ℚ), rsa ≤ age → 110 < age →
      rmd_for_age age balance rsa =
        balance / max 3.0 (26.5 - ((age : ℚ) - 73) * 0.8)) ∧
    (∀ age : ℤ, (0 : ℚ) < max 3.0 (26.5 - ((age : ℚ) - 73) * 0.8)) := by
  refine ⟨?_, ?_, ?_, ?_, ?_, ?_⟩
  · intro age rsa balance h
    rw [rmd_for_age, if_pos h]
  · intro age rsa balance d h hd
    rw [rmd_for_age, if_neg (not_lt.mpr h), hd]
  · intro balance
    rw [rmd_for_age, if_pos (by norm_num)]
  · rw [rmd_for_age, if_neg (by norm_num),
      show UNIFORM_LIFETIME_DIVISORS 73 = some 26.5 by
        rw [UNIFORM_LIFETIME_DIVISORS, if_pos rfl]]
  · intro age rsa balance h h110
    rw [rmd_for_age, if_neg (not_lt.mpr h), UNIFORM_LIFETIME_DIVISORS_none age h110]
  · intro age
    exact lt_of_lt_of_le (by norm_num) (le_max_left _ _)

/-- C8 witness: ages 72 (below start), 80 (tabulated divisor 20.2) and 120
(beyond the table, extrapolated divisor). -/
theorem retirement_c8_witness :
    rmd_for_age 72 5 73 = 0 ∧
    rmd_for_age 80 100 73 = 100 / 20.2 ∧
    rmd_for_age 120 7 73 = 7 / max 3.0 (26.5 - (((120 : ℤ) : ℚ) - 73) * 0.8) :=
  ⟨retirement_c8_rmd.1 72 73 5 (by norm_num),
   retirement_c8_rmd.2.1 80 73 100 20.2 (by norm_num)
     (by norm_num [UNIFORM_LIFETIME_DIVISORS]),
   retirement_c8_rmd.2.2.2.2.1 120 73 7 (by norm_num) (by norm_num)⟩

/-- C9: with an LTC onset year configured (a nonzero `some y`), the
living-expenses field of the record for year `start_year + i` is the
rounding to cents of `start_living_expenses * (1 + inflation)^i` plus —
exactly from the onset year on — `ltc_start_cost * (1 + inflation)^i`,
the LTC term inflating from the simulation's start year. -/
theorem retirement_c9_ltc (inputs : PlannerInputs) (rc ed : ℤ → ℚ) (isd : Bool)
    (years i : ℕ) (y : ℤ) (hi : i < years)
    (hy : inputs.ltc_start_year = some y) (hy0 : y ≠ 0) :
    ((simulate inputs years rc ed isd).get? i).map PlannerRow.living_expenses =
      some (round2 (inputs.start_living_expenses * (1 + inputs.inflation_rate) ^ i +
        (if y ≤ inputs.start_year + (i : ℤ) then
          inputs.ltc_start_cost * (1 + inputs.inflation_rate) ^ i
         else 0))) := by
  rw [simulate_get? inputs rc ed isd years i hi]
  simp only [Option.map_some', simulateStep]
  rw [livingFor_eq inputs y hy hy0 i]
  rfl

/-- C9 witness: the statement instantiated on the default-configured
scenario (onset year 2038) in its first simulated year, 2025. -/
theorem retirement_c9_witness :
    ((simulate c1Inputs 1 zeroMap zeroMap true).get? 0).map PlannerRow.living_expenses =
      some (round2 (c1Inputs.start_living_expenses * (1 + c1Inputs.inflation_rate) ^ 0 +
        (if (2038 : ℤ) ≤ c1Inputs.start_year + ((0 : ℕ) : ℤ) then
          c1Inputs.ltc_start_cost * (1 + c1Inputs.inflation_rate) ^ 0
         else 0))) :=
  retirement_c9_ltc c1Inputs zeroMap zeroMap true 1 0 2038 (by norm_num) rfl (by norm_num)

/-- C10: the year's shortfall is subtracted only from the Roth balance,
after that year's growth and conversion have been applied to it; the
traditional-balance update depends on none of the living-expense inputs
nor on the Roth side, so overriding the starting living expenses, the LTC
cost and onset year, and the starting Roth balance leaves every emitted
traditional balance and the carried traditional state unchanged. -/
theorem retirement_c10_frame (inputs : PlannerInputs) (le lc : ℚ) (ly : Option ℤ)
    (rb : ℚ) (rc ed : ℤ → ℚ) (isd : Bool) (years i : ℕ) (hi : i < years) :
    (∀ trad roth : ℚ,
      (simulateStep inputs rc ed isd i trad roth).2.2 =
        rothNextPreFor inputs rc i roth - amtFromRothFor inputs rc ed isd i trad) ∧
    (∀ trad : ℚ,
      tradNextFor (overrideExpenses inputs le lc ly rb) rc ed i trad =
        tradNextFor inputs rc ed i trad) ∧
    ((simulate (overrideExpenses inputs le lc ly rb) years rc ed isd).get? i).map
        PlannerRow.trad_ira =
      ((simulate inputs years rc ed isd).get? i).map PlannerRow.trad_ira ∧
    (simState (overrideExpenses inputs le lc ly rb) rc ed isd (i + 1)).1 =
      (simState inputs rc ed isd (i + 1)).1 := by
  have h1 : ∀ j : ℕ, (simState (overrideExpenses inputs le lc ly rb) rc ed isd j).1 =
      (simState inputs rc ed isd j).1 := by
    intro j
    unfold simState
    exact simStateFrom_trad_override inputs le lc ly rb rc ed isd 0
      inputs.start_trad_ira j _ _
  refine ⟨fun trad roth => rfl, fun trad => rfl, ?_, h1 (i + 1)⟩
  rw [simulate_get? _ rc ed isd years i hi, simulate_get? inputs rc ed isd years i hi]
  simp only [Option.map_some', simulateStep]
  rw [tradNextFor_override, h1 i]

/-- C10 witness: the frame statement instantiated on a concrete scenario
with overridden expense configuration. -/
theorem retirement_c10_witness :
    (∀ trad roth : ℚ,
      (simulateStep c1Inputs zeroMap zeroMap true 0 trad roth).2.2 =
        rothNextPreFor c1Inputs zeroMap 0 roth -
          amtFromRothFor c1Inputs zeroMap zeroMap true 0 trad) ∧
    (∀ trad : ℚ,
      tradNextFor (overrideExpenses c1Inputs 1 2 none 3) zeroMap zeroMap 0 trad =
        tradNextFor c1Inputs zeroMap zeroMap 0 trad) ∧
    ((simulate (overrideExpenses c1Inputs 1 2 none 3) 1 zeroMap zeroMap true).get? 0).map
        PlannerRow.trad_ira =
      ((simulate c1Inputs 1 zeroMap zeroMap true).get? 0).map PlannerRow.trad_ira ∧
    (simState (overrideExpenses c1Inputs 1 2 none 3) zeroMap zeroMap true 1).1 =
      (simState c1Inputs zeroMap zeroMap true 1).1 :=
  retirement_c10_frame c1Inputs 1 2 none 3 zeroMap zeroMap true 1 0 (by norm_num)
